import Mathlib

/-!
Shallow embedding of the behaviour-tree coordinator nodes of
node-red-contrib-behavior-tree: the Parallel, Sequence and Repeat
coordinators, their Blackboard (Node-RED global context) records, and the
poll / dispatch handlers, translated function-by-function from
src/bt-parallel (src/unnamed/part_000), src/bt-sequence.js and
src/bt-repeat.js.  JS objects stored in the global context are modelled as
structures whose fields are `Option`-valued (a `none` field is an absent
property, mirroring `undefined`); the store itself is a record with one
field per key the coordinators touch.
-/

namespace BT

/-! ## Parallel coordinator (src/unnamed/part_000, BTParallelNode) -/

/-- Configuration of a parallel node: `config.outputs` and
`config.completionType`, fixed at node creation. -/
structure ParConfig where
  child_count : Nat
  completion_type : String
deriving DecidableEq, Repr

/-- The record stored under `node.global_key` (default "parallel_result").
Fields are optional because a Blackboard value is an open JS object; the
coordinator itself always writes all three fields. -/
structure ParRecord where
  type : Option String := none
  status : Option String := none
  child_status : Option (List String) := none
deriving DecidableEq, Repr

/-- In-memory state of a parallel node: `is_running`, `is_completed`,
`child_status` array and `active_children` counter. -/
structure ParState where
  is_running : Bool
  is_completed : Bool
  child_status : List String
  active_children : Nat
deriving DecidableEq, Repr

/-- The slice of the global context a parallel node touches: the record
under `global_key` and the child-signal value under `child_key`. -/
structure ParGlobal where
  record : Option ParRecord
  child : Option String
deriving DecidableEq, Repr

/-- `success_indices` of check_child_status: indices whose status is
"success" (the forEach push over `node.child_status`). -/
def success_indices (cs : List String) : List Nat :=
  (cs.enum.filter fun q => q.2 == "success").map Prod.fst

/-- `failure_indices` of check_child_status. -/
def failure_indices (cs : List String) : List Nat :=
  (cs.enum.filter fun q => q.2 == "failure").map Prod.fst

/-- One poll tick of the parallel node (`check_child_status`).  Returns the
updated node state and global context.  When the run is finished the final
record and the child-signal write are the pair written at lines 129-136 of
the source. -/
def check_child_status (node : ParConfig) (s : ParState) (g : ParGlobal) :
    ParState × ParGlobal :=
  if ¬s.is_running ∨ s.is_completed then (s, g) else
  -- const global_state = global.get(global_key) || {};
  let global_state : ParRecord := g.record.getD {}
  -- if (global_state.child_status) node.child_status = global_state.child_status;
  -- (an empty JS array is truthy, so any present array is adopted)
  let cs : List String :=
    match global_state.child_status with
    | some a => a
    | none => s.child_status
  let success_count := (success_indices cs).length
  let failure_count := (failure_indices cs).length
  let active := (cs.filter fun st => st == "running").length
  -- switch (node.completion_type): pair (is_complete, final_status)
  let comp : Bool × String :=
    if node.completion_type = "all_success" then
      if failure_count > 0 then (true, "failure")
      else if success_count = node.child_count then (true, "success")
      else (false, "failure")
    else if node.completion_type = "any_success" then
      if success_count > 0 then (true, "success")
      else if failure_count = node.child_count then (true, "failure")
      else (false, "failure")
    else if node.completion_type = "all_complete" then
      if success_count + failure_count = node.child_count then
        (true, if success_count > 0 then "success" else "failure")
      else (false, "failure")
    else (false, "failure")
  let s1 : ParState := { s with child_status := cs, active_children := active }
  if comp.1 then
    ({ s1 with is_completed := true, is_running := false },
     { record := some { type := some "parallel", status := some comp.2,
                        child_status := some cs },
       child := some comp.2 })
  else (s1, g)

/-- The parallel node's input handler.  It resets the run state, writes the
record and the child signal, dispatches one message per slot (returned as
the list of slot indices) and marks every slot "running".  In the source
the stored record aliases `node.child_status`, which the dispatch loop then
mutates to all-"running", so the store ends up holding the all-"running"
array. -/
def parallel_input (node : ParConfig) (s : ParState) (g : ParGlobal) :
    ParState × ParGlobal × List Nat :=
  let _ := (s, g)
  let cs := List.replicate node.child_count "running"
  ({ is_running := true, is_completed := false, child_status := cs,
     active_children := node.child_count },
   { record := some { type := some "parallel", status := some "running",
                      child_status := some cs },
     child := some "running" },
   List.range node.child_count)

/-! ## Sequence coordinator (src/bt-sequence.js, BTSequenceNode) -/

/-- Configuration of a sequence node: `config.outputs`. -/
structure SeqConfig where
  child_count : Nat
deriving DecidableEq, Repr

/-- The record stored under the sequence node's `global_key` (default
"sequence_result").  All fields optional: the handlers write different
subsets of them at different points, and spreads keep absent fields
absent. -/
structure SeqRecord where
  type : Option String := none
  status : Option String := none
  current_index : Option Int := none
  total_children : Option Nat := none
  child_status : Option (List String) := none
  completed_children : Option Int := none
  success_indices : Option (List Nat) := none
  failure_indices : Option (List Nat) := none
deriving DecidableEq, Repr

/-- In-memory state of a sequence node. `current_index` starts at -1. -/
structure SeqState where
  is_running : Bool
  is_completed : Bool
  current_index : Int
  child_status : List String
deriving DecidableEq, Repr

/-- The slice of the global context a sequence node touches. -/
structure SeqGlobal where
  record : Option SeqRecord
  child : Option String
deriving DecidableEq, Repr

/-- finishExecution of the sequence node: marks the run done, writes the
final record (status, counts, index partition, statuses) and the final
child signal. -/
def seq_finishExecution (node : SeqConfig) (final_status : String)
    (s : SeqState) (g : SeqGlobal) : SeqState × SeqGlobal :=
  let _ := g
  let s1 : SeqState := { s with is_completed := true, is_running := false }
  let final_rec : SeqRecord :=
    { type := some "sequence"
      status := some final_status
      total_children := some node.child_count
      completed_children := some (s1.current_index + 1)
      success_indices := some (success_indices s1.child_status)
      failure_indices := some (failure_indices s1.child_status)
      child_status := some s1.child_status }
  (s1, { record := some final_rec, child := some final_status })

/-- executeNextChild: advance `current_index`; past the last slot, finish
with "success"; otherwise mark the slot "running", update the record (a
spread over the current one) and the child signal, and dispatch the slot
(returned as `some index`). -/
def executeNextChild (node : SeqConfig) (s : SeqState) (g : SeqGlobal) :
    SeqState × SeqGlobal × Option Nat :=
  if ¬s.is_running ∨ s.is_completed then (s, g, none) else
  let s1 : SeqState := { s with current_index := s.current_index + 1 }
  if s1.current_index ≥ (node.child_count : Int) then
    let r := seq_finishExecution node "success" s1 g
    (r.1, r.2, none)
  else
    let ci := s1.current_index.toNat
    let s2 : SeqState := { s1 with child_status := s1.child_status.set ci "running" }
    let rec0 : SeqRecord := g.record.getD {}
    let rec1 : SeqRecord :=
      { rec0 with
        current_index := some s2.current_index
        child_status := some s2.child_status
        status := some "running" }
    (s2, { record := some rec1, child := some "running" }, some ci)

/-- Shorthand for the node state right after check_child_state records the
observed value v for the current slot (line 117 of the source). -/
def seq_mark (s : SeqState) (v : String) : SeqState :=
  { s with child_status := s.child_status.set s.current_index.toNat v }

/-- Shorthand for the store right after check_child_state writes the
updated status array back (the spread at lines 120-123 of the source). -/
def seq_mark_global (s : SeqState) (g : SeqGlobal) (v : String) : SeqGlobal :=
  { g with record := some { (g.record.getD {}) with child_status := some (s.child_status.set s.current_index.toNat v) } }

/-- check_child_state of the sequence node.  The result `none` models the
JS TypeError thrown by `global_state.child_status[node.current_index]`
when the record read from the store (defaulted to `{}` by `|| {}`) has no
child_status property: the tick raises instead of returning.  Otherwise
`some (state, global, dispatch)`. -/
def seq_check_child_state (node : SeqConfig) (s : SeqState) (g : SeqGlobal) :
    Option (SeqState × SeqGlobal × Option Nat) :=
  if ¬s.is_running ∨ s.is_completed then some (s, g, none) else
  if s.current_index < 0 ∨ s.current_index ≥ (node.child_count : Int) then
    some (s, g, none)
  else
  let global_state : SeqRecord := g.record.getD {}
  -- the bind propagates the missing-field case as `none` (the TypeError)
  global_state.child_status.bind fun arr =>
    -- arr[current_index]; an out-of-bounds read yields undefined, which is
    -- neither "success" nor "failure"
    let child_status := arr.getD s.current_index.toNat "undefined"
    if child_status ≠ "success" ∧ child_status ≠ "failure" then some (s, g, none)
    else
      -- record the slot outcome locally and write the array back over the
      -- record (the spread keeps the other fields of global_state)
      let s1 : SeqState := seq_mark s child_status
      let g1 : SeqGlobal := seq_mark_global s g child_status
      if child_status = "success" then some (executeNextChild node s1 g1)
      else
        let r := seq_finishExecution node "failure" s1 g1
        some (r.1, r.2, none)

/-- The sequence node's input handler: it unconditionally resets the run
state (a re-trigger aborts the in-flight run and starts over), writes a
fresh record and child signal, then immediately advances to the first
child via executeNextChild. -/
def seq_input (node : SeqConfig) (s : SeqState) (g : SeqGlobal) :
    SeqState × SeqGlobal × Option Nat :=
  let _ := (s, g)
  let s1 : SeqState := { is_running := true, is_completed := false,
                         current_index := -1,
                         child_status := List.replicate node.child_count "waiting" }
  let g1 : SeqGlobal :=
    { record := some { type := some "sequence", status := some "running",
                       current_index := some (-1),
                       total_children := some node.child_count,
                       child_status := some s1.child_status },
      child := some "running" }
  executeNextChild node s1 g1

/-- Environment step before a poll: the active child (or any external
writer) stores `obs` as the record's child_status array. -/
def seq_env (obs : List String) (g : SeqGlobal) : SeqGlobal :=
  { g with record := some { (g.record.getD {}) with child_status := some obs } }

/-- One polled step of a sequence run: the environment publishes `obs`,
then the node checks.  With the field present the check cannot raise, so
the default is never taken. -/
def seq_tick (node : SeqConfig) (obs : List String) (sg : SeqState × SeqGlobal) :
    SeqState × SeqGlobal × Option Nat :=
  (seq_check_child_state node sg.1 (seq_env obs sg.2)).getD (sg.1, sg.2, none)

/-- Fold of polled steps, accumulating the dispatched slot indices. -/
def seq_ticks (node : SeqConfig) : List (List String) → SeqState × SeqGlobal →
    (SeqState × SeqGlobal) × List Nat
  | [], sg => (sg, [])
  | obs :: rest, sg =>
    let r := seq_tick node obs sg
    let rr := seq_ticks node rest (r.1, r.2.1)
    (rr.1, r.2.2.toList ++ rr.2)

/-- The transitions a tracked slot status may take within one run:
stay put, or move forward along waiting → running → {success, failure}. -/
def allowed_step (a b : String) : Prop :=
  a = b ∨
  (a = "waiting" ∧ (b = "running" ∨ b = "success" ∨ b = "failure")) ∨
  (a = "running" ∧ (b = "success" ∨ b = "failure"))

/-- Slot-wise monotonicity between two status arrays (out-of-range slots
count as "waiting"). -/
def slots_allowed (cs cs' : List String) : Prop :=
  ∀ i : Nat, allowed_step (cs.getD i "waiting") (cs'.getD i "waiting")

/-- The run invariant of a sequence node: the slot array has the
configured length and, while the run is live, the current slot is
"running", every earlier slot is "success" and every later slot is
"waiting". -/
def SeqInv (node : SeqConfig) (s : SeqState) : Prop :=
  s.child_status.length = node.child_count ∧
  (s.is_completed = false →
    s.is_running = true ∧
    0 ≤ s.current_index ∧ s.current_index < (node.child_count : Int) ∧
    s.child_status.getD s.current_index.toNat "waiting" = "running" ∧
    (∀ i : Nat, i < s.current_index.toNat →
      s.child_status.getD i "waiting" = "success") ∧
    (∀ i : Nat, s.current_index.toNat < i →
      s.child_status.getD i "waiting" = "waiting"))

/-! ## Repeat coordinator (src/bt-repeat.js, BTRepeatNode) -/

/-- Configuration of a repeat node: `config.terminationCondition`. -/
structure RepConfig where
  terminationCondition : String
deriving DecidableEq, Repr

/-- The record stored under the repeat node's `global_key` (default
"repeat_result").  child_status is the field a child writes into this
record to report its outcome; the records lists hold iteration numbers
(`none` is the hole produced by the `length = 1` assignment in the
zero-count path). -/
structure RepRecord where
  type : Option String := none
  status : Option String := none
  current_count : Option Nat := none
  total_count : Option Nat := none
  child_status : Option String := none
  success_count : Option Nat := none
  failure_count : Option Nat := none
  success_records : Option (List (Option Nat)) := none
  failure_records : Option (List (Option Nat)) := none
deriving DecidableEq, Repr

/-- In-memory state of a repeat node.  `repeat_count` is a mutable node
field: the configured default at creation, overwritten by a valid
Blackboard override at trigger time. -/
structure RepState where
  is_running : Bool
  is_completed : Bool
  repeat_count : Nat
  current_count : Nat
  success_records : List (Option Nat)
  failure_records : List (Option Nat)
deriving DecidableEq, Repr

/-- The slice of the global context a repeat node touches: the record
under `global_key`, the child signal under `child_key`, and the override
value under `global_repeat_count`.  The override is modelled by its
parseInt outcome: `none` = key absent or null, `some none` = parse failure
(NaN), `some (some z)` = parseInt returned z. -/
structure RepGlobal where
  record : Option RepRecord
  child : Option String
  repeat_override : Option (Option Int)
deriving DecidableEq, Repr

/-- Node state at creation: `config.repeatCount || 3` (a configured 0 is
falsy and becomes 3). -/
def rep_init (configRepeatCount : Nat) : RepState :=
  { is_running := false, is_completed := false,
    repeat_count := if configRepeatCount = 0 then 3 else configRepeatCount,
    current_count := 0, success_records := [], failure_records := [] }

/-- finishExecution of the repeat node: marks the run done, computes the
final status (last outcome verbatim for exitOnFailure, otherwise success
iff any recorded success), writes the fresh final record and sets the
child-signal key to the final status. -/
def rep_finishExecution (node : RepConfig) (last_status : String)
    (s : RepState) (g : RepGlobal) : RepState × RepGlobal :=
  let s1 : RepState := { s with is_completed := true, is_running := false }
  let final_status :=
    if node.terminationCondition = "exitOnFailure" then last_status
    else if s1.success_records.length > 0 then "success" else "failure"
  let final_rec : RepRecord :=
    { type := some "repeat"
      status := some final_status
      total_count := some s1.repeat_count
      success_count := some s1.success_records.length
      failure_count := some s1.failure_records.length
      success_records := some s1.success_records
      failure_records := some s1.failure_records }
  (s1, { record := some final_rec, child := some final_status,
         repeat_override := g.repeat_override })

/-- executeChild: increment `current_count`, dispatch the child (tag
returned as `some current_count`), update the record by a spread (which
keeps a stale child_status field if one is present) and reset the
child-signal key to "running". -/
def executeChild (node : RepConfig) (s : RepState) (g : RepGlobal) :
    RepState × RepGlobal × Option Nat :=
  let _ := node
  if ¬s.is_running ∨ s.is_completed then (s, g, none) else
  let s1 : RepState := { s with current_count := s.current_count + 1 }
  let rec0 : RepRecord := g.record.getD {}
  let rec1 : RepRecord :=
    { rec0 with current_count := some s1.current_count, status := some "running" }
  (s1, { g with record := some rec1, child := some "running" },
   some s1.current_count)

/-- check_child_state of the repeat node: classify the child_status field
of the record under `global_key` (absent, "" or "running" mean the child
is still running: no state change), record the outcome, and continue or
finish according to the termination condition. -/
def rep_check_child_state (node : RepConfig) (s : RepState) (g : RepGlobal) :
    RepState × RepGlobal × Option Nat :=
  if ¬s.is_running ∨ s.is_completed then (s, g, none) else
  let global_state : RepRecord := g.record.getD {}
  -- if (!child_status || child_status === "running") return;  an absent
  -- field (undefined) and "" are both falsy, so both mean still-running
  let cstat := global_state.child_status.getD ""
  if cstat = "" ∨ cstat = "running" then (s, g, none) else
  let s1 : RepState :=
    if cstat = "success" then
      { s with success_records := s.success_records ++ [some s.current_count] }
    else
      { s with failure_records := s.failure_records ++ [some s.current_count] }
  let should_continue : Bool :=
    if node.terminationCondition = "untilSuccess" then decide (cstat ≠ "success")
    else if node.terminationCondition = "exitOnFailure" then
      decide (cstat = "success") && decide (s1.current_count < s1.repeat_count)
    else decide (s1.current_count < s1.repeat_count)
  if should_continue then executeChild node s1 g
  else
    let r := rep_finishExecution node cstat s1 g
    (r.1, r.2, none)

/-- The repeat count used for a run: a parsed override ≥ 0 replaces the
node's stored count, any other override value (absent, null, NaN or
negative) leaves the stored count in effect. -/
def effective_count (defaultCount : Nat) (override : Option (Option Int)) : Nat :=
  match override with
  | some (some z) => if 0 ≤ z then z.toNat else defaultCount
  | _ => defaultCount

/-- The repeat node's input handler.  Returns (state, global, dispatched
iteration tag, warned).  A trigger while a run is active is rejected with
a warning, leaving everything untouched.  Otherwise the run state resets,
a parsed override ≥ 0 overwrites node.repeat_count, a resulting count of
exactly 0 finishes immediately as "success" (after the
`success_records.length = 1` assignment), and otherwise the record and
child signal are written and the first child dispatched. -/
def rep_input (node : RepConfig) (s : RepState) (g : RepGlobal) :
    RepState × RepGlobal × Option Nat × Bool :=
  if s.is_running then (s, g, none, true) else
  let s1 : RepState :=
    { s with is_running := true, is_completed := false, current_count := 0,
             success_records := [], failure_records := [] }
  let s2 : RepState :=
    { s1 with repeat_count := effective_count s1.repeat_count g.repeat_override }
  if s2.repeat_count = 0 then
    let s3 : RepState := { s2 with success_records := [none] }
    let r := rep_finishExecution node "success" s3 g
    (r.1, r.2, none, false)
  else
    let init_rec : RepRecord :=
      { type := some "repeat"
        status := some "running"
        current_count := some 0
        total_count := some s2.repeat_count }
    let g1 : RepGlobal :=
      { g with record := some init_rec, child := some "running" }
    let r := executeChild node s2 g1
    (r.1, r.2.1, r.2.2, false)

/-- Environment step before a repeat poll: the child stores `outcome` in
the record's child_status field. -/
def rep_env (outcome : String) (g : RepGlobal) : RepGlobal :=
  { g with record := some { (g.record.getD {}) with child_status := some outcome } }

/-- Fold of polled repeat steps: before each check the environment
publishes the next outcome.  Also counts dispatches made by the checks. -/
def rep_ticks (node : RepConfig) : List String → RepState × RepGlobal →
    (RepState × RepGlobal) × Nat
  | [], sg => (sg, 0)
  | o :: rest, sg =>
    let r := rep_check_child_state node sg.1 (rep_env o sg.2)
    let rr := rep_ticks node rest (r.1, r.2.1)
    (rr.1, (if r.2.2.isSome then 1 else 0) + rr.2)

/-- A full repeat run: trigger, then one polled step per observed child
outcome.  Returns the final (state, global) and the total number of
dispatches (trigger dispatch included). -/
def rep_run (node : RepConfig) (outcomes : List String) (s : RepState)
    (g : RepGlobal) : (RepState × RepGlobal) × Nat :=
  let r := rep_input node s g
  let rr := rep_ticks node outcomes (r.1, r.2.1)
  (rr.1, (if r.2.2.1.isSome then 1 else 0) + rr.2)

/-! ### Counting lemmas bridging the index-list code to countP -/

theorem length_filter_enumFrom {α : Type} (p : α → Bool) (k : Nat) (l : List α) :
    ((List.enumFrom k l).filter fun q => p q.2).length = (l.filter p).length := by
  induction l generalizing k with
  | nil => rfl
  | cons a t ih =>
    simp only [List.enumFrom, List.filter_cons]
    cases p a <;> simp [ih]

theorem success_indices_length (cs : List String) :
    (success_indices cs).length = cs.countP (fun st => st == "success") := by
  unfold success_indices
  rw [List.length_map, List.countP_eq_length_filter]
  exact length_filter_enumFrom (fun st => st == "success") 0 cs

theorem failure_indices_length (cs : List String) :
    (failure_indices cs).length = cs.countP (fun st => st == "failure") := by
  unfold failure_indices
  rw [List.length_map, List.countP_eq_length_filter]
  exact length_filter_enumFrom (fun st => st == "failure") 0 cs

theorem string_sf_ne : ("success" : String) ≠ "failure" := by decide

theorem countP_eq_length_iff {α : Type} (p : α → Bool) (l : List α) :
    l.countP p = l.length ↔ ∀ a ∈ l, p a := by
  constructor
  · intro h a ha
    exact List.countP_eq_length.mp h a ha
  · intro h
    exact List.countP_eq_length.mpr h

theorem countP_sf_le (cs : List String) :
    cs.countP (fun st => st == "success") + cs.countP (fun st => st == "failure")
      ≤ cs.length := by
  induction cs with
  | nil => simp
  | cons a t ih =>
    simp only [List.countP_cons, List.length_cons, beq_iff_eq]
    by_cases h1 : a = "success"
    · subst h1
      simp [string_sf_ne]
      omega
    · by_cases h2 : a = "failure"
      · subst h2
        simp [h1]
        omega
      · simp [h1, h2]
        omega

theorem countP_sf_full (cs : List String) :
    cs.countP (fun st => st == "success") + cs.countP (fun st => st == "failure")
        = cs.length ↔ ∀ st ∈ cs, st = "success" ∨ st = "failure" := by
  induction cs with
  | nil => simp
  | cons a t ih =>
    simp only [List.countP_cons, List.length_cons, List.mem_cons, beq_iff_eq]
    by_cases h1 : a = "success"
    · subst h1
      simp only [string_sf_ne, if_true, if_false, eq_self_iff_true, if_pos rfl,
        if_neg string_sf_ne]
      constructor
      · intro h st hst
        rcases hst with h' | h'
        · left; exact h'
        · exact ih.mp (by omega) st h'
      · intro h
        have := ih.mpr (fun st hst => h st (Or.inr hst))
        omega
    · by_cases h2 : a = "failure"
      · subst h2
        rw [if_neg h1, if_pos rfl]
        constructor
        · intro h st hst
          rcases hst with h' | h'
          · right; exact h'
          · exact ih.mp (by omega) st h'
        · intro h
          have := ih.mpr (fun st hst => h st (Or.inr hst))
          omega
      · rw [if_neg h1, if_neg h2]
        constructor
        · intro h
          exfalso
          have hle := countP_sf_le t
          omega
        · intro h
          exact absurd (h a (Or.inl rfl)) (by simp [h1, h2])

theorem countP_s_pos (cs : List String) :
    0 < cs.countP (fun st => st == "success") ↔ ∃ st ∈ cs, st = "success" := by
  rw [List.countP_pos]
  simp

theorem countP_f_pos (cs : List String) :
    0 < cs.countP (fun st => st == "failure") ↔ ∃ st ∈ cs, st = "failure" := by
  rw [List.countP_pos]
  simp

theorem countP_s_all (cs : List String) :
    cs.countP (fun st => st == "success") = cs.length ↔
      ∀ st ∈ cs, st = "success" := by
  rw [countP_eq_length_iff]
  simp

theorem countP_f_all (cs : List String) :
    cs.countP (fun st => st == "failure") = cs.length ↔
      ∀ st ∈ cs, st = "failure" := by
  rw [countP_eq_length_iff]
  simp

/-- C1: for every ParallelCoordinator poll tick taken during a run (running,
not completed) that observes per-slot statuses `cs` of the record stored
under the coordinator key: with policy all_success the tick completes the
run with final status "failure" exactly when some slot shows "failure" and
with "success" exactly when every slot shows "success"; with any_success it
completes with "success" exactly when some slot shows "success" and with
"failure" exactly when every slot shows "failure"; with all_complete it
completes exactly when every slot is "success" or "failure", with final
status "success" exactly when additionally some slot is "success"; under
any other policy string it never completes, and whenever the tick does not
complete, the store is left unchanged and the node keeps polling
(is_running stays true). -/
theorem c1_parallel_completion_policies
    (node : ParConfig) (s : ParState) (g : ParGlobal) (rec : ParRecord)
    (cs : List String)
    (hrun : s.is_running = true) (hcomp : s.is_completed = false)
    (hrec : g.record = some rec) (hcs : rec.child_status = some cs)
    (hlen : cs.length = node.child_count) :
    (node.completion_type = "all_success" →
      (((check_child_status node s g).1.is_completed = true ∧
          ((check_child_status node s g).2.record.getD {}).status = some "failure")
        ↔ ∃ st ∈ cs, st = "failure") ∧
      (((check_child_status node s g).1.is_completed = true ∧
          ((check_child_status node s g).2.record.getD {}).status = some "success")
        ↔ ∀ st ∈ cs, st = "success"))
    ∧
    (node.completion_type = "any_success" →
      (((check_child_status node s g).1.is_completed = true ∧
          ((check_child_status node s g).2.record.getD {}).status = some "success")
        ↔ ∃ st ∈ cs, st = "success") ∧
      (((check_child_status node s g).1.is_completed = true ∧
          ((check_child_status node s g).2.record.getD {}).status = some "failure")
        ↔ ∀ st ∈ cs, st = "failure"))
    ∧
    (node.completion_type = "all_complete" →
      ((check_child_status node s g).1.is_completed = true
        ↔ ∀ st ∈ cs, st = "success" ∨ st = "failure") ∧
      (((check_child_status node s g).1.is_completed = true ∧
          ((check_child_status node s g).2.record.getD {}).status = some "success")
        ↔ ((∀ st ∈ cs, st = "success" ∨ st = "failure") ∧ ∃ st ∈ cs, st = "success")))
    ∧
    (node.completion_type ≠ "all_success" → node.completion_type ≠ "any_success" →
      node.completion_type ≠ "all_complete" →
      (check_child_status node s g).1.is_completed = false)
    ∧
    ((check_child_status node s g).1.is_completed = false →
      (check_child_status node s g).2 = g ∧
      (check_child_status node s g).1.is_running = true) := by
  have hsc := success_indices_length cs
  have hfc := failure_indices_length cs
  refine ⟨?_, ?_, ?_, ?_, ?_⟩
  · intro hpol
    by_cases hf : (failure_indices cs).length > 0
    · have hex : ∃ st ∈ cs, st = "failure" := (countP_f_pos cs).mp (by omega)
      have hnall : ¬ ∀ st ∈ cs, st = "success" := by
        rcases hex with ⟨st, hst, hst2⟩
        intro hall
        exact string_sf_ne ((hall st hst).symm.trans hst2)
      constructor
      · simp [check_child_status, hrun, hcomp, hrec, hcs, hpol, hf, hex]
      · simp [check_child_status, hrun, hcomp, hrec, hcs, hpol, hf, hnall]
    · have hnex : ¬ ∃ st ∈ cs, st = "failure" := by
        rw [← countP_f_pos cs]
        omega
      by_cases hs : (success_indices cs).length = node.child_count
      · have hall : ∀ st ∈ cs, st = "success" :=
          (countP_s_all cs).mp (by omega)
        constructor
        · simp [check_child_status, hrun, hcomp, hrec, hcs, hpol, hf, hs, hnex]
        · simp [check_child_status, hrun, hcomp, hrec, hcs, hpol, hf, hs]
          exact hall
      · have hnall : ¬ ∀ st ∈ cs, st = "success" := by
          rw [← countP_s_all cs]
          omega
        constructor
        · simp [check_child_status, hrun, hcomp, hrec, hcs, hpol, hf, hs, hnex]
        · simp [check_child_status, hrun, hcomp, hrec, hcs, hpol, hf, hs, hnall]
  · intro hpol
    by_cases hs : (success_indices cs).length > 0
    · have hex : ∃ st ∈ cs, st = "success" := (countP_s_pos cs).mp (by omega)
      have hnall : ¬ ∀ st ∈ cs, st = "failure" := by
        rcases hex with ⟨st, hst, hst2⟩
        intro hall
        exact string_sf_ne (hst2.symm.trans (hall st hst))
      constructor
      · simp [check_child_status, hrun, hcomp, hrec, hcs, hpol, hs, hex]
      · simp [check_child_status, hrun, hcomp, hrec, hcs, hpol, hs, hnall]
    · have hnex : ¬ ∃ st ∈ cs, st = "success" := by
        rw [← countP_s_pos cs]
        omega
      by_cases hfall : (failure_indices cs).length = node.child_count
      · have hall : ∀ st ∈ cs, st = "failure" :=
          (countP_f_all cs).mp (by omega)
        constructor
        · simp [check_child_status, hrun, hcomp, hrec, hcs, hpol, hs, hfall, hnex]
        · simp [check_child_status, hrun, hcomp, hrec, hcs, hpol, hs, hfall]
          exact hall
      · have hnall : ¬ ∀ st ∈ cs, st = "failure" := by
          rw [← countP_f_all cs]
          omega
        constructor
        · simp [check_child_status, hrun, hcomp, hrec, hcs, hpol, hs, hfall, hnex]
        · simp [check_child_status, hrun, hcomp, hrec, hcs, hpol, hs, hfall, hnall]
  · intro hpol
    by_cases hdone : (success_indices cs).length + (failure_indices cs).length
        = node.child_count
    · have hall : ∀ st ∈ cs, st = "success" ∨ st = "failure" :=
        (countP_sf_full cs).mp (by omega)
      by_cases hs : (success_indices cs).length > 0
      · have hex : ∃ st ∈ cs, st = "success" := (countP_s_pos cs).mp (by omega)
        constructor
        · simp [check_child_status, hrun, hcomp, hrec, hcs, hpol, hdone]
          exact hall
        · simp [check_child_status, hrun, hcomp, hrec, hcs, hpol, hdone, hs]
          obtain ⟨st, hst, hst2⟩ := hex
          exact ⟨hall, hst2 ▸ hst⟩
      · have hnex : ¬ ∃ st ∈ cs, st = "success" := by
          rw [← countP_s_pos cs]
          omega
        constructor
        · simp [check_child_status, hrun, hcomp, hrec, hcs, hpol, hdone]
          exact hall
        · simp [check_child_status, hrun, hcomp, hrec, hcs, hpol, hdone, hs, hnex]
    · have hnall : ¬ ∀ st ∈ cs, st = "success" ∨ st = "failure" := by
        rw [← countP_sf_full cs]
        omega
      constructor
      · simp [check_child_status, hrun, hcomp, hrec, hcs, hpol, hdone, hnall]
      · simp [check_child_status, hrun, hcomp, hrec, hcs, hpol, hdone, hnall]
  · intro h1 h2 h3
    simp [check_child_status, hrun, hcomp, hrec, hcs, h1, h2, h3]
  · intro hnc
    constructor
    · by_cases h1 : node.completion_type = "all_success"
      · by_cases hf : (failure_indices cs).length > 0
        · simp [check_child_status, hrun, hcomp, hrec, hcs, h1, hf] at hnc
        · by_cases hs : (success_indices cs).length = node.child_count
          · simp [check_child_status, hrun, hcomp, hrec, hcs, h1, hf, hs] at hnc
          · simp [check_child_status, hrun, hcomp, hrec, hcs, h1, hf, hs]
      · by_cases h2 : node.completion_type = "any_success"
        · by_cases hs : (success_indices cs).length > 0
          · simp [check_child_status, hrun, hcomp, hrec, hcs, h1, h2, hs] at hnc
          · by_cases hfall : (failure_indices cs).length = node.child_count
            · simp [check_child_status, hrun, hcomp, hrec, hcs, h1, h2, hs,
                hfall] at hnc
            · simp [check_child_status, hrun, hcomp, hrec, hcs, h1, h2, hs, hfall]
        · by_cases h3 : node.completion_type = "all_complete"
          · by_cases hdone : (success_indices cs).length + (failure_indices cs).length
                = node.child_count
            · simp [check_child_status, hrun, hcomp, hrec, hcs, h1, h2, h3,
                hdone] at hnc
            · simp [check_child_status, hrun, hcomp, hrec, hcs, h1, h2, h3, hdone]
          · simp [check_child_status, hrun, hcomp, hrec, hcs, h1, h2, h3]
    · by_cases h1 : node.completion_type = "all_success"
      · by_cases hf : (failure_indices cs).length > 0
        · simp [check_child_status, hrun, hcomp, hrec, hcs, h1, hf] at hnc
        · by_cases hs : (success_indices cs).length = node.child_count
          · simp [check_child_status, hrun, hcomp, hrec, hcs, h1, hf, hs] at hnc
          · simp [check_child_status, hrun, hcomp, hrec, hcs, h1, hf, hs, hrun]
      · by_cases h2 : node.completion_type = "any_success"
        · by_cases hs : (success_indices cs).length > 0
          · simp [check_child_status, hrun, hcomp, hrec, hcs, h1, h2, hs] at hnc
          · by_cases hfall : (failure_indices cs).length = node.child_count
            · simp [check_child_status, hrun, hcomp, hrec, hcs, h1, h2, hs,
                hfall] at hnc
            · simp [check_child_status, hrun, hcomp, hrec, hcs, h1, h2, hs, hfall,
                hrun]
        · by_cases h3 : node.completion_type = "all_complete"
          · by_cases hdone : (success_indices cs).length + (failure_indices cs).length
                = node.child_count
            · simp [check_child_status, hrun, hcomp, hrec, hcs, h1, h2, h3,
                hdone] at hnc
            · simp [check_child_status, hrun, hcomp, hrec, hcs, h1, h2, h3, hdone,
                hrun]
          · simp [check_child_status, hrun, hcomp, hrec, hcs, h1, h2, h3, hrun]

theorem seq_mark_is_running (s : SeqState) (v : String) :
    (seq_mark s v).is_running = s.is_running := rfl

theorem seq_mark_is_completed (s : SeqState) (v : String) :
    (seq_mark s v).is_completed = s.is_completed := rfl

theorem seq_mark_current_index (s : SeqState) (v : String) :
    (seq_mark s v).current_index = s.current_index := rfl

theorem seq_mark_child_status (s : SeqState) (v : String) :
    (seq_mark s v).child_status = s.child_status.set s.current_index.toNat v := rfl

/-- Helper: a completed sequence run ignores every further poll tick: the
node state never changes again and nothing is dispatched. -/
theorem seq_ticks_completed (node : SeqConfig) (obsList : List (List String)) :
    ∀ (s : SeqState) (g : SeqGlobal), s.is_completed = true →
      (seq_ticks node obsList (s, g)).1.1 = s ∧
      (seq_ticks node obsList (s, g)).2 = [] := by
  induction obsList with
  | nil =>
    intro s g _
    exact ⟨rfl, rfl⟩
  | cons obs rest ih =>
    intro s g h
    have ht : seq_tick node obs (s, g) = (s, seq_env obs g, none) := by
      simp [seq_tick, seq_check_child_state, h]
    simp only [seq_ticks, ht]
    simpa using ih s (seq_env obs g) h

/-- C2: the sequence trigger only ever dispatches slot 0; a poll tick can
dispatch a slot d only when d is at least 1, the slot under check was d-1,
and the observed record listed slot d-1 as "success"; a poll tick that
observes "failure" for the current slot completes the run as "failure"
with no dispatch; and once the run is completed every later poll tick
leaves the node state unchanged and dispatches nothing — so the first
observed failure halts dispatch permanently for that run. -/
theorem c2_sequence_dispatch_order
    (node : SeqConfig) (s : SeqState) (g : SeqGlobal) :
    (∀ d, (seq_input node s g).2.2 = some d → d = 0)
    ∧
    (∀ r d, seq_check_child_state node s g = some r → r.2.2 = some d →
      1 ≤ d ∧ s.current_index = (d : Int) - 1 ∧
      ∃ arr, (g.record.getD {}).child_status = some arr ∧
        arr.getD (d - 1) "undefined" = "success")
    ∧
    (∀ arr, s.is_running = true → s.is_completed = false →
      0 ≤ s.current_index → s.current_index < (node.child_count : Int) →
      (g.record.getD {}).child_status = some arr →
      arr.getD s.current_index.toNat "undefined" = "failure" →
      ∃ s1 g1, seq_check_child_state node s g = some (s1, g1, none) ∧
        s1.is_completed = true ∧ s1.is_running = false ∧
        (g1.record.getD {}).status = some "failure")
    ∧
    (s.is_completed = true → ∀ obsList,
      (seq_ticks node obsList (s, g)).1.1 = s ∧
      (seq_ticks node obsList (s, g)).2 = []) := by
  refine ⟨?_, ?_, ?_, ?_⟩
  · intro d hd
    by_cases hn : ((-1 : Int) + 1) ≥ (node.child_count : Int)
    · simp only [seq_input, executeNextChild] at hd
      rw [if_neg (by simp), if_pos hn] at hd
      simp at hd
    · simp only [seq_input, executeNextChild] at hd
      rw [if_neg (by simp), if_neg hn] at hd
      simp at hd
      omega
  · intro r d hr hd
    simp only [seq_check_child_state] at hr
    by_cases h1 : ¬s.is_running ∨ s.is_completed
    · rw [if_pos h1] at hr
      simp only [Option.some.injEq] at hr
      subst hr
      simp at hd
    · rw [if_neg h1] at hr
      obtain ⟨hrun1, hcomp1⟩ : s.is_running = true ∧ s.is_completed = false := by
        simpa [not_or] using h1
      by_cases h2 : s.current_index < 0 ∨ s.current_index ≥ (node.child_count : Int)
      · rw [if_pos h2] at hr
        simp only [Option.some.injEq] at hr
        subst hr
        simp at hd
      · rw [if_neg h2] at hr
        rcases ha : (g.record.getD {}).child_status with _ | arr
        · rw [ha] at hr
          simp at hr
        · rw [ha] at hr
          simp only [Option.some_bind] at hr
          by_cases hterm : arr.getD s.current_index.toNat "undefined" ≠ "success" ∧
              arr.getD s.current_index.toNat "undefined" ≠ "failure"
          · rw [if_pos hterm] at hr
            simp only [Option.some.injEq] at hr
            subst hr
            simp at hd
          · rw [if_neg hterm] at hr
            by_cases hsucc : arr.getD s.current_index.toNat "undefined" = "success"
            · rw [if_pos hsucc] at hr
              simp only [Option.some.injEq, executeNextChild, seq_mark_is_running,
                seq_mark_is_completed, seq_mark_current_index,
                seq_mark_child_status] at hr
              rw [if_neg (by simp [hrun1, hcomp1])] at hr
              by_cases hend : s.current_index + 1 ≥ (node.child_count : Int)
              · rw [if_pos hend] at hr
                subst hr
                simp at hd
              · rw [if_neg hend] at hr
                subst hr
                have hd' : (s.current_index + 1).toNat = d := by simpa using hd
                refine ⟨by omega, by omega, arr, rfl, ?_⟩
                have he : d - 1 = s.current_index.toNat := by omega
                rw [he]
                exact hsucc
            · rw [if_neg hsucc] at hr
              simp only [Option.some.injEq] at hr
              subst hr
              simp at hd
  · intro arr hrun hcomp hlo hhi ha hv
    have h1 : ¬(¬s.is_running ∨ s.is_completed) := by simp [hrun, hcomp]
    have h2 : ¬(s.current_index < 0 ∨ s.current_index ≥ (node.child_count : Int)) := by
      omega
    have hterm : ¬(arr.getD s.current_index.toNat "undefined" ≠ "success" ∧
        arr.getD s.current_index.toNat "undefined" ≠ "failure") := by
      rw [hv]
      decide
    have hres : seq_check_child_state node s g =
        some ((seq_finishExecution node "failure"
            { s with child_status := s.child_status.set s.current_index.toNat "failure" }
            { g with record := some { (g.record.getD {}) with
                child_status := some (s.child_status.set s.current_index.toNat "failure") } }).1,
          (seq_finishExecution node "failure"
            { s with child_status := s.child_status.set s.current_index.toNat "failure" }
            { g with record := some { (g.record.getD {}) with
                child_status := some (s.child_status.set s.current_index.toNat "failure") } }).2,
          none) := by
      simp only [seq_check_child_state]
      rw [if_neg h1, if_neg h2, ha]
      simp only [Option.some_bind]
      rw [hv]
      rw [if_neg (by decide), if_neg (by decide)]
      rfl
    exact ⟨_, _, hres, by simp [seq_finishExecution], by simp [seq_finishExecution],
      by simp [seq_finishExecution]⟩
  · intro h obsList
    exact seq_ticks_completed node obsList s g h

/-- C2 witness: with two slots, a trigger on a fresh node dispatches slot
0, and the poll that observes slot 0 as "success" dispatches slot 1. -/
theorem c2_sequence_dispatch_order_witness :
    (0 : Nat) = 0 ∧
    (1 ≤ 1 ∧ (0 : Int) = (1 : Nat) - 1 ∧
      ∃ arr, ((some { child_status := some ["success", "running"] } : Option SeqRecord).getD {}).child_status = some arr ∧
        arr.getD (1 - 1) "undefined" = "success") :=
  ⟨(c2_sequence_dispatch_order ⟨2⟩ ⟨false, false, -1, ["waiting", "waiting"]⟩
      ⟨none, none⟩).1 0 rfl,
   (c2_sequence_dispatch_order ⟨2⟩ ⟨true, false, 0, ["running", "waiting"]⟩
      ⟨some { child_status := some ["success", "running"] }, some "running"⟩).2.1
     (⟨true, false, 1, ["success", "running"]⟩,
      ⟨some { status := some "running", current_index := some 1,
              child_status := some ["success", "running"] },
        some "running"⟩,
      some 1)
     1 (by rfl) rfl⟩

/-- C6 (code bug in the sequence coordinator): a sequence poll tick that
finds the Blackboard record missing, or present without a child_status
field, does not behave as the claimed "child still running" no-op — the
source dereferences `global_state.child_status[node.current_index]` right
after defaulting the record with `|| {}`, so the tick raises a TypeError
(modelled as the `none` result) instead of returning quietly.  For
contrast, the repeat and parallel poll handlers do treat the same
situation as still-running with no state change. -/
theorem c6_sequence_missing_record_raises :
    seq_check_child_state ⟨2⟩ ⟨true, false, 0, ["running", "waiting"]⟩
        ⟨none, some "running"⟩ = none ∧
    seq_check_child_state ⟨2⟩ ⟨true, false, 0, ["running", "waiting"]⟩
        ⟨some {}, some "running"⟩ = none ∧
    rep_check_child_state ⟨"fixed"⟩ ⟨true, false, 3, 1, [], []⟩
        ⟨none, some "running", none⟩ =
      (⟨true, false, 3, 1, [], []⟩, ⟨none, some "running", none⟩, none) ∧
    rep_check_child_state ⟨"fixed"⟩ ⟨true, false, 3, 1, [], []⟩
        ⟨some {}, some "running", none⟩ =
      (⟨true, false, 3, 1, [], []⟩, ⟨some {}, some "running", none⟩, none) ∧
    check_child_status ⟨2, "all_success"⟩ ⟨true, false, ["running", "running"], 2⟩
        ⟨none, some "running"⟩ =
      (⟨true, false, ["running", "running"], 2⟩, ⟨none, some "running"⟩) := by
  decide

/-- C3: for a RepeatCoordinator with termination condition "fixed", a poll
tick that observes a terminal child outcome dispatches a next iteration
exactly when current_count is still below the repeat count, whatever the
outcome was; when it finishes the run instead, the final record's status is
"success" exactly when at least one iteration was recorded as a success;
and the concrete run of the spec — count 3, outcomes
[failure, success, failure] — ends with status "success",
success_records = [2] and failure_records = [1, 3] after exactly 3
dispatches (iteration numbers are Option-valued in the model because a JS
array can carry holes). -/
theorem c3_repeat_fixed_policy
    (node : RepConfig) (s : RepState) (g : RepGlobal) (rec : RepRecord)
    (cstat : String)
    (hfix : node.terminationCondition = "fixed")
    (hrun : s.is_running = true) (hcomp : s.is_completed = false)
    (hrec : g.record = some rec) (hcst : rec.child_status = some cstat)
    (hterm : cstat = "success" ∨ cstat = "failure") :
    ((rep_check_child_state node s g).2.2.isSome ↔
      s.current_count < s.repeat_count)
    ∧
    (¬ s.current_count < s.repeat_count →
      ∃ fr, (rep_check_child_state node s g).2.1.record = some fr ∧
        (fr.status = some "success" ↔
          (rep_check_child_state node s g).1.success_records ≠ []))
    ∧
    rep_run ⟨"fixed"⟩ ["failure", "success", "failure"] (rep_init 3)
        ⟨none, none, none⟩ =
      ((⟨false, true, 3, 3, [some 2], [some 1, some 3]⟩,
        ⟨some ⟨some "repeat", some "success", none, some 3, none, some 1, some 2,
           some [some 2], some [some 1, some 3]⟩, some "success", none⟩), 3) := by
  refine ⟨?_, ?_, by decide⟩
  · rcases hterm with h | h <;> subst h <;>
      by_cases hlt : s.current_count < s.repeat_count <;>
      simp [rep_check_child_state, executeChild, rep_finishExecution, hrec, hcst,
        hfix, hrun, hcomp, hlt]
  · intro hnlt
    rcases hterm with h | h <;> subst h <;>
      cases hsr : s.success_records <;>
      simp [rep_check_child_state, executeChild, rep_finishExecution, hrec, hcst,
        hfix, hrun, hcomp, hnlt, hsr]

/-- C3 witness: a concrete fixed-policy tick (count 3, second iteration
just failed) dispatches a third iteration since 2 < 3. -/
theorem c3_repeat_fixed_policy_witness :
    (rep_check_child_state ⟨"fixed"⟩ ⟨true, false, 3, 2, [some 1], []⟩
        ⟨some { child_status := some "failure" }, some "running", none⟩).2.2.isSome
      ↔ 2 < 3 :=
  (c3_repeat_fixed_policy ⟨"fixed"⟩ ⟨true, false, 3, 2, [some 1], []⟩
      ⟨some { child_status := some "failure" }, some "running", none⟩
      { child_status := some "failure" } "failure" rfl rfl rfl rfl rfl
      (Or.inr rfl)).1

/-- C4: for a RepeatCoordinator with termination condition "exitOnFailure",
a poll tick that observes a terminal child outcome dispatches a next
iteration exactly when the outcome is "success" and current_count is still
below the repeat count; when it finishes the run instead, the final
record's status is the observed outcome verbatim; and the concrete run of
the spec — count 5, outcomes [success, success, failure] — stops after
exactly 3 dispatches with final status "failure". -/
theorem c4_repeat_exit_on_failure_policy
    (node : RepConfig) (s : RepState) (g : RepGlobal) (rec : RepRecord)
    (cstat : String)
    (hpol : node.terminationCondition = "exitOnFailure")
    (hrun : s.is_running = true) (hcomp : s.is_completed = false)
    (hrec : g.record = some rec) (hcst : rec.child_status = some cstat)
    (hterm : cstat = "success" ∨ cstat = "failure") :
    ((rep_check_child_state node s g).2.2.isSome ↔
      (cstat = "success" ∧ s.current_count < s.repeat_count))
    ∧
    (¬(cstat = "success" ∧ s.current_count < s.repeat_count) →
      ∃ fr, (rep_check_child_state node s g).2.1.record = some fr ∧
        fr.status = some cstat)
    ∧
    rep_run ⟨"exitOnFailure"⟩ ["success", "success", "failure"] (rep_init 5)
        ⟨none, none, none⟩ =
      ((⟨false, true, 5, 3, [some 1, some 2], [some 3]⟩,
        ⟨some ⟨some "repeat", some "failure", none, some 5, none, some 2, some 1,
           some [some 1, some 2], some [some 3]⟩, some "failure", none⟩), 3) := by
  refine ⟨?_, ?_, by decide⟩
  · rcases hterm with h | h <;> subst h <;>
      by_cases hlt : s.current_count < s.repeat_count <;>
      simp [rep_check_child_state, executeChild, rep_finishExecution, hrec, hcst,
        hpol, hrun, hcomp, hlt]
  · intro hnc
    rcases hterm with h | h <;> subst h
    · have hnlt : ¬ s.current_count < s.repeat_count := fun hlt => hnc ⟨rfl, hlt⟩
      simp [rep_check_child_state, executeChild, rep_finishExecution, hrec, hcst,
        hpol, hrun, hcomp, hnlt]
    · simp [rep_check_child_state, executeChild, rep_finishExecution, hrec, hcst,
        hpol, hrun, hcomp]

/-- C4 witness: a concrete exitOnFailure tick observing "failure" finishes
the run with the record's status "failure" (the last outcome verbatim). -/
theorem c4_repeat_exit_on_failure_policy_witness :
    ∃ fr, (rep_check_child_state ⟨"exitOnFailure"⟩ ⟨true, false, 5, 3, [some 1, some 2], []⟩
        ⟨some { child_status := some "failure" }, some "running", none⟩).2.1.record = some fr ∧
      fr.status = some "failure" :=
  (c4_repeat_exit_on_failure_policy ⟨"exitOnFailure"⟩
      ⟨true, false, 5, 3, [some 1, some 2], []⟩
      ⟨some { child_status := some "failure" }, some "running", none⟩
      { child_status := some "failure" } "failure" rfl rfl rfl rfl rfl
      (Or.inr rfl)).2.1 (by simp)

/-! ### List access helpers -/

theorem getD_replicate {α : Type} (a : α) (n i : Nat) :
    (List.replicate n a).getD i a = a := by
  induction n generalizing i with
  | zero => simp [List.getD]
  | succ n ih =>
    cases i with
    | zero => rfl
    | succ i => simpa [List.replicate] using ih i

theorem getD_set_eq {α : Type} (b d : α) (l : List α) (i : Nat) (h : i < l.length) :
    (l.set i b).getD i d = b := by
  induction l generalizing i with
  | nil => simp at h
  | cons a t ih =>
    cases i with
    | zero => rfl
    | succ i => simpa using ih i (by simpa using h)

theorem getD_set_ne {α : Type} (b d : α) (l : List α) (i j : Nat) (h : i ≠ j) :
    (l.set i b).getD j d = l.getD j d := by
  induction l generalizing i j with
  | nil => rfl
  | cons a t ih =>
    cases i with
    | zero =>
      cases j with
      | zero => exact absurd rfl h
      | succ j => rfl
    | succ i =>
      cases j with
      | zero => rfl
      | succ j => simpa using ih i j (by omega)

/-! ### The sequence run invariant -/

/-- A live sequence check, written with the observed array explicit: the
partially evaluated form of check_child_state once the guards have
passed. -/
theorem seq_check_characterization
    (node : SeqConfig) (s : SeqState) (g : SeqGlobal) (arr : List String)
    (hrun : s.is_running = true) (hcomp : s.is_completed = false)
    (hlo : 0 ≤ s.current_index) (hhi : s.current_index < (node.child_count : Int))
    (ha : (g.record.getD {}).child_status = some arr) :
    seq_check_child_state node s g =
      (if arr.getD s.current_index.toNat "undefined" ≠ "success" ∧
          arr.getD s.current_index.toNat "undefined" ≠ "failure" then
        some (s, g, none)
      else if arr.getD s.current_index.toNat "undefined" = "success" then
        some (executeNextChild node
          (seq_mark s (arr.getD s.current_index.toNat "undefined"))
          (seq_mark_global s g (arr.getD s.current_index.toNat "undefined")))
      else
        some ((seq_finishExecution node "failure"
            (seq_mark s (arr.getD s.current_index.toNat "undefined"))
            (seq_mark_global s g (arr.getD s.current_index.toNat "undefined"))).1,
          (seq_finishExecution node "failure"
            (seq_mark s (arr.getD s.current_index.toNat "undefined"))
            (seq_mark_global s g (arr.getD s.current_index.toNat "undefined"))).2,
          none)) := by
  have h1 : ¬(¬s.is_running ∨ s.is_completed) := by simp [hrun, hcomp]
  have h2 : ¬(s.current_index < 0 ∨ s.current_index ≥ (node.child_count : Int)) := by
    omega
  simp only [seq_check_child_state]
  rw [if_neg h1, if_neg h2, ha]
  simp only [Option.some_bind]

theorem seq_inv_input (node : SeqConfig) (s0 : SeqState) (g0 : SeqGlobal) :
    SeqInv node (seq_input node s0 g0).1 := by
  by_cases hn : ((-1 : Int) + 1) ≥ (node.child_count : Int)
  · have hstate : (seq_input node s0 g0).1 =
        ⟨false, true, (-1 : Int) + 1, List.replicate node.child_count "waiting"⟩ := by
      simp only [seq_input, executeNextChild]
      rw [if_neg (by simp), if_pos hn]
      rfl
    rw [hstate]
    unfold SeqInv
    exact ⟨by simp, by simp⟩
  · have hstate : (seq_input node s0 g0).1 =
        ⟨true, false, (-1 : Int) + 1,
          (List.replicate node.child_count "waiting").set ((-1 : Int) + 1).toNat "running"⟩ := by
      simp only [seq_input, executeNextChild]
      rw [if_neg (by simp), if_neg hn]
    rw [hstate]
    unfold SeqInv
    dsimp only
    refine ⟨by simp, fun _ => ⟨rfl, by omega, by omega, ?_, ?_, ?_⟩⟩
    · exact getD_set_eq _ _ _ _ (by simp; omega)
    · intro i hi
      exact absurd hi (by omega)
    · intro i hi
      rw [getD_set_ne _ _ _ _ _ (by omega)]
      exact getD_replicate _ _ _

theorem seq_tick_preserves (node : SeqConfig) (obs : List String)
    (s : SeqState) (g : SeqGlobal) (hinv : SeqInv node s) :
    SeqInv node (seq_tick node obs (s, g)).1 ∧
    slots_allowed s.child_status (seq_tick node obs (s, g)).1.child_status := by
  by_cases hc : s.is_completed = true
  · have ht : (seq_tick node obs (s, g)).1 = s := by
      simp [seq_tick, seq_check_child_state, hc]
    rw [ht]
    exact ⟨hinv, fun i => Or.inl rfl⟩
  · have hc' : s.is_completed = false := by
      simpa using hc
    obtain ⟨hlen, hlive⟩ := hinv
    obtain ⟨hrun, hlo, hhi, hcur, hpre, hpost⟩ := hlive hc'
    have hobs : ((seq_env obs g).record.getD {}).child_status = some obs := by
      simp [seq_env]
    have hchar := seq_check_characterization node s (seq_env obs g) obs hrun hc'
      hlo hhi hobs
    have hciN : s.current_index.toNat < node.child_count := by omega
    by_cases hterm : obs.getD s.current_index.toNat "undefined" ≠ "success" ∧
        obs.getD s.current_index.toNat "undefined" ≠ "failure"
    · rw [if_pos hterm] at hchar
      have ht : (seq_tick node obs (s, g)).1 = s := by
        simp only [seq_tick, hchar, Option.getD_some]
      rw [ht]
      exact ⟨⟨hlen, fun _ => ⟨hrun, hlo, hhi, hcur, hpre, hpost⟩⟩, fun i => Or.inl rfl⟩
    · by_cases hsucc : obs.getD s.current_index.toNat "undefined" = "success"
      · rw [if_neg hterm, if_pos hsucc] at hchar
        have hg1 : ¬(¬(seq_mark s (obs.getD s.current_index.toNat "undefined")).is_running ∨
            (seq_mark s (obs.getD s.current_index.toNat "undefined")).is_completed) := by
          simp [seq_mark_is_running, seq_mark_is_completed, hrun, hc']
        by_cases hend : (seq_mark s (obs.getD s.current_index.toNat "undefined")).current_index + 1
            ≥ (node.child_count : Int)
        · have ht : (seq_tick node obs (s, g)).1 =
              ⟨false, true, s.current_index + 1,
                s.child_status.set s.current_index.toNat
                  (obs.getD s.current_index.toNat "undefined")⟩ := by
            simp only [seq_tick, hchar, Option.getD_some, executeNextChild]
            rw [if_neg hg1, if_pos hend]
            rfl
          have hend' : s.current_index + 1 ≥ (node.child_count : Int) := hend
          rw [ht]
          unfold SeqInv
          dsimp only
          refine ⟨⟨by simpa using hlen, by simp⟩, ?_⟩
          intro i
          by_cases hi : i = s.current_index.toNat
          · subst hi
            rw [getD_set_eq _ _ _ _ (by omega), hcur, hsucc]
            exact Or.inr (Or.inr ⟨rfl, Or.inl rfl⟩)
          · rw [getD_set_ne _ _ _ _ _ (fun he => hi he.symm)]
            exact Or.inl rfl
        · have ht : (seq_tick node obs (s, g)).1 =
              ⟨s.is_running, s.is_completed, s.current_index + 1,
                (s.child_status.set s.current_index.toNat
                    (obs.getD s.current_index.toNat "undefined")).set
                  (s.current_index + 1).toNat "running"⟩ := by
            simp only [seq_tick, hchar, Option.getD_some, executeNextChild]
            rw [if_neg hg1, if_neg hend]
            rfl
          have hend' : ¬ s.current_index + 1 ≥ (node.child_count : Int) := hend
          have htn : (s.current_index + 1).toNat = s.current_index.toNat + 1 := by
            omega
          rw [ht]
          unfold SeqInv
          dsimp only
          constructor
          · refine ⟨by simpa using hlen, fun _ => ⟨hrun, by omega, by omega, ?_, ?_, ?_⟩⟩
            · rw [htn, getD_set_eq _ _ _ _ (by simp; omega)]
            · intro i hi
              rw [htn] at hi
              by_cases hieq : i = s.current_index.toNat
              · subst hieq
                rw [getD_set_ne _ _ _ _ _ (by omega), getD_set_eq _ _ _ _ (by omega),
                  hsucc]
              · rw [getD_set_ne _ _ _ _ _ (by omega),
                  getD_set_ne _ _ _ _ _ (by omega)]
                exact hpre i (by omega)
            · intro i hi
              rw [htn] at hi
              rw [getD_set_ne _ _ _ _ _ (by omega), getD_set_ne _ _ _ _ _ (by omega)]
              exact hpost i (by omega)
          · intro i
            by_cases hi1 : i = s.current_index.toNat
            · subst hi1
              rw [getD_set_ne _ _ _ _ _ (by omega), getD_set_eq _ _ _ _ (by omega),
                hcur, hsucc]
              exact Or.inr (Or.inr ⟨rfl, Or.inl rfl⟩)
            · by_cases hi2 : i = s.current_index.toNat + 1
              · subst hi2
                rw [htn, getD_set_eq _ _ _ _ (by simp; omega),
                  hpost _ (by omega)]
                exact Or.inr (Or.inl ⟨rfl, Or.inl rfl⟩)
              · rw [getD_set_ne _ _ _ _ _ (by omega),
                  getD_set_ne _ _ _ _ _ (by omega)]
                exact Or.inl rfl
      · have hfail : obs.getD s.current_index.toNat "undefined" = "failure" := by
          rcases not_and_or.mp hterm with h | h
          · exact absurd (not_not.mp h) hsucc
          · exact not_not.mp h
        rw [if_neg hterm, if_neg hsucc] at hchar
        have ht : (seq_tick node obs (s, g)).1 =
            ⟨false, true, s.current_index,
              s.child_status.set s.current_index.toNat
                (obs.getD s.current_index.toNat "undefined")⟩ := by
          simp only [seq_tick, hchar, Option.getD_some]
          rfl
        rw [ht]
        unfold SeqInv
        dsimp only
        refine ⟨⟨by simpa using hlen, by simp⟩, ?_⟩
        intro i
        by_cases hi : i = s.current_index.toNat
        · subst hi
          rw [getD_set_eq _ _ _ _ (by omega), hcur, hfail]
          exact Or.inr (Or.inr ⟨rfl, Or.inr rfl⟩)
        · rw [getD_set_ne _ _ _ _ _ (fun he => hi he.symm)]
          exact Or.inl rfl

theorem seq_ticks_inv (node : SeqConfig) (past : List (List String)) :
    ∀ (s : SeqState) (g : SeqGlobal), SeqInv node s →
      SeqInv node (seq_ticks node past (s, g)).1.1 := by
  induction past with
  | nil => intro s g h; exact h
  | cons obs rest ih =>
    intro s g h
    simp only [seq_ticks]
    exact ih _ _ (seq_tick_preserves node obs s g h).1


/-- C5 counterexample: a trigger with an effective repeat count of 0 (the
node was created with count 3, the Blackboard override parses to 0) indeed
dispatches nothing and completes immediately as success — but it does NOT
leave the child-signal key unchanged: finishExecution overwrites it with
"success", so a pre-existing value "prev" is lost. -/
theorem c5_zero_count_counterexample :
    (rep_input ⟨"fixed"⟩ (rep_init 3) ⟨none, some "prev", some (some 0)⟩).2.2.1 = none ∧
    (rep_input ⟨"fixed"⟩ (rep_init 3) ⟨none, some "prev", some (some 0)⟩).1.is_completed = true ∧
    ¬ (rep_input ⟨"fixed"⟩ (rep_init 3)
        ⟨none, some "prev", some (some 0)⟩).2.1.child = some "prev" ∧
    (rep_input ⟨"fixed"⟩ (rep_init 3)
        ⟨none, some "prev", some (some 0)⟩).2.1.child = some "success" := by
  decide

/-- C5 amended: when the effective repeat count is exactly 0, a trigger on
an idle repeat node dispatches no WorkItem, emits no warning, completes
immediately with final status "success", and skips the initial "running"
child-signal write — but finishExecution still writes the child-signal key
once, setting it to "success". -/
theorem c5_zero_count_amended
    (node : RepConfig) (s : RepState) (g : RepGlobal)
    (hrun : s.is_running = false)
    (hzero : effective_count s.repeat_count g.repeat_override = 0) :
    (rep_input node s g).2.2.1 = none ∧
    (rep_input node s g).2.2.2 = false ∧
    (rep_input node s g).1.is_completed = true ∧
    (∃ fr, (rep_input node s g).2.1.record = some fr ∧
      fr.status = some "success") ∧
    (rep_input node s g).2.1.child = some "success" := by
  simp [rep_input, rep_finishExecution, hrun, hzero]

/-- C5 amended witness: the zero-count behaviour at the counterexample's
concrete input. -/
theorem c5_zero_count_amended_witness :
    (rep_input ⟨"fixed"⟩ (rep_init 3) ⟨none, some "prev", some (some 0)⟩).2.2.1 = none ∧
    (rep_input ⟨"fixed"⟩ (rep_init 3) ⟨none, some "prev", some (some 0)⟩).2.2.2 = false ∧
    (rep_input ⟨"fixed"⟩ (rep_init 3)
        ⟨none, some "prev", some (some 0)⟩).1.is_completed = true ∧
    (∃ fr, (rep_input ⟨"fixed"⟩ (rep_init 3)
        ⟨none, some "prev", some (some 0)⟩).2.1.record = some fr ∧
      fr.status = some "success") ∧
    (rep_input ⟨"fixed"⟩ (rep_init 3)
        ⟨none, some "prev", some (some 0)⟩).2.1.child = some "success" :=
  c5_zero_count_amended ⟨"fixed"⟩ (rep_init 3) ⟨none, some "prev", some (some 0)⟩
    rfl rfl

/-- C7: a trigger arriving while a repeat run is active is rejected with a
warning and changes nothing; the sequence and parallel input handlers
instead always reset: after a sequence trigger no slot carries a terminal
status (in the node state or in the freshly written record), and after a
parallel trigger every slot is "running" in both. -/
theorem c7_retrigger_policies
    (rnode : RepConfig) (rs : RepState) (rg : RepGlobal)
    (snode : SeqConfig) (ss : SeqState) (sg : SeqGlobal)
    (pnode : ParConfig) (ps : ParState) (pg : ParGlobal)
    (hrun : rs.is_running = true) :
    rep_input rnode rs rg = (rs, rg, none, true)
    ∧
    (∀ st ∈ (seq_input snode ss sg).1.child_status,
      st = "waiting" ∨ st = "running")
    ∧
    (∀ arr, ((seq_input snode ss sg).2.1.record.getD {}).child_status = some arr →
      ∀ st ∈ arr, st = "waiting" ∨ st = "running")
    ∧
    (parallel_input pnode ps pg).1.child_status =
      List.replicate pnode.child_count "running"
    ∧
    ((parallel_input pnode ps pg).2.1.record.getD {}).child_status =
      some (List.replicate pnode.child_count "running") := by
  refine ⟨?_, ?_, ?_, ?_, ?_⟩
  · simp [rep_input, hrun]
  · intro st hst
    by_cases hn : ((-1 : Int) + 1) ≥ (snode.child_count : Int)
    · simp only [seq_input, executeNextChild] at hst
      rw [if_neg (by simp), if_pos hn] at hst
      simp only [seq_finishExecution] at hst
      left
      exact (List.eq_of_mem_replicate (by simpa using hst))
    · simp only [seq_input, executeNextChild] at hst
      rw [if_neg (by simp), if_neg hn] at hst
      simp only at hst
      rcases List.mem_or_eq_of_mem_set (by simpa using hst) with h | h
      · left
        exact List.eq_of_mem_replicate h
      · right
        exact h
  · intro arr harr st hst
    by_cases hn : ((-1 : Int) + 1) ≥ (snode.child_count : Int)
    · simp only [seq_input, executeNextChild] at harr
      rw [if_neg (by simp), if_pos hn] at harr
      simp only [seq_finishExecution, Option.getD_some] at harr
      simp only [Option.some.injEq] at harr
      subst harr
      left
      exact List.eq_of_mem_replicate hst
    · simp only [seq_input, executeNextChild] at harr
      rw [if_neg (by simp), if_neg hn] at harr
      simp only [Option.getD_some, Option.some.injEq] at harr
      subst harr
      rcases List.mem_or_eq_of_mem_set hst with h | h
      · left
        exact List.eq_of_mem_replicate h
      · right
        exact h
  · rfl
  · rfl

/-- C7 witness: the repeat rejection at a concrete mid-run state, together
with the sequence and parallel resets on two-slot nodes. -/
theorem c7_retrigger_policies_witness :
    rep_input ⟨"fixed"⟩ ⟨true, false, 3, 1, [], []⟩ ⟨none, none, none⟩ =
      (⟨true, false, 3, 1, [], []⟩, ⟨none, none, none⟩, none, true) ∧
    (∀ st ∈ (seq_input ⟨2⟩ ⟨true, false, 1, ["success", "running"]⟩
        ⟨none, none⟩).1.child_status, st = "waiting" ∨ st = "running") :=
  ⟨(c7_retrigger_policies ⟨"fixed"⟩ ⟨true, false, 3, 1, [], []⟩ ⟨none, none, none⟩
      ⟨2⟩ ⟨true, false, 1, ["success", "running"]⟩ ⟨none, none⟩
      ⟨2, "all_success"⟩ ⟨true, false, ["success", "failure"], 0⟩ ⟨none, none⟩
      rfl).1,
   (c7_retrigger_policies ⟨"fixed"⟩ ⟨true, false, 3, 1, [], []⟩ ⟨none, none, none⟩
      ⟨2⟩ ⟨true, false, 1, ["success", "running"]⟩ ⟨none, none⟩
      ⟨2, "all_success"⟩ ⟨true, false, ["success", "failure"], 0⟩ ⟨none, none⟩
      rfl).2.1⟩

/-- C8 counterexample: the node is created with configured count 3; a
first trigger carries a Blackboard override parsing to 7, the run (policy
untilSuccess, one successful iteration) completes, and node.repeat_count is
now 7; a second trigger whose override is missing then runs with count 7 —
the previous trigger's override value — not the configured default 3, and
records total_count 7. -/
theorem c8_override_sticky_counterexample :
    (rep_run ⟨"untilSuccess"⟩ ["success"] (rep_init 3)
        ⟨none, none, some (some 7)⟩).1 =
      (⟨false, true, 7, 1, [some 1], []⟩,
       ⟨some ⟨some "repeat", some "success", none, some 7, none, some 1, some 0,
          some [some 1], some []⟩, some "success", some (some 7)⟩) ∧
    (rep_input ⟨"untilSuccess"⟩ ⟨false, true, 7, 1, [some 1], []⟩
        ⟨some ⟨some "repeat", some "success", none, some 7, none, some 1, some 0,
          some [some 1], some []⟩, some "success", none⟩).1.repeat_count = 7 ∧
    ((rep_input ⟨"untilSuccess"⟩ ⟨false, true, 7, 1, [some 1], []⟩
        ⟨some ⟨some "repeat", some "success", none, some 7, none, some 1, some 0,
          some [some 1], some []⟩, some "success", none⟩).2.1.record.getD {}).total_count
      = some 7 := by
  decide

/-- C8 amended: on a trigger, a missing, unparsable or negative override
leaves the run's count at the node's CURRENT stored repeat_count — which is
the configured default only until some earlier trigger carried a valid
override, because a parsed override ≥ 0 overwrites the stored count
(node.repeat_count is not immutable). -/
theorem c8_override_fallback_amended
    (node : RepConfig) (s : RepState) (g : RepGlobal)
    (hrun : s.is_running = false) :
    ((g.repeat_override = none ∨ g.repeat_override = some none ∨
        ∃ z, g.repeat_override = some (some z) ∧ z < 0) →
      (rep_input node s g).1.repeat_count = s.repeat_count)
    ∧
    (∀ z, g.repeat_override = some (some z) → 0 ≤ z →
      (rep_input node s g).1.repeat_count = z.toNat) := by
  have key : (rep_input node s g).1.repeat_count =
      effective_count s.repeat_count g.repeat_override := by
    by_cases h0 : effective_count s.repeat_count g.repeat_override = 0
    · simp [rep_input, rep_finishExecution, hrun, h0]
    · simp [rep_input, executeChild, hrun, h0]
  constructor
  · intro h
    rw [key]
    rcases h with h | h | ⟨z, hz, hneg⟩
    · rw [h]
      rfl
    · rw [h]
      rfl
    · rw [hz]
      simp only [effective_count]
      rw [if_neg (by omega)]
  · intro z hz hpos
    rw [key, hz]
    simp [effective_count, hpos]

/-- C8 amended witness: an idle node whose stored count is 7 keeps 7 when
the override is missing, and takes 4 when the override parses to 4. -/
theorem c8_override_fallback_amended_witness :
    (rep_input ⟨"fixed"⟩ ⟨false, true, 7, 1, [some 1], []⟩
        ⟨none, none, none⟩).1.repeat_count = 7 ∧
    (rep_input ⟨"fixed"⟩ ⟨false, true, 7, 1, [some 1], []⟩
        ⟨none, none, some (some 4)⟩).1.repeat_count = Int.toNat 4 :=
  ⟨(c8_override_fallback_amended ⟨"fixed"⟩ ⟨false, true, 7, 1, [some 1], []⟩
      ⟨none, none, none⟩ rfl).1 (Or.inl rfl),
   (c8_override_fallback_amended ⟨"fixed"⟩ ⟨false, true, 7, 1, [some 1], []⟩
      ⟨none, none, some (some 4)⟩ rfl).2 4 rfl (by decide)⟩

/-- C9 counterexample: in a parallel run (2 slots, all_success) started by
a trigger, a first poll observing ["success", "running"] records slot 0 as
"success" with the run still active; a second poll observing
["waiting", "running"] then overwrites slot 0 back to "waiting" — a
status reversal within one run, which the claimed
waiting → running → {success, failure} order forbids. -/
theorem c9_parallel_revert_counterexample :
    (parallel_input ⟨2, "all_success"⟩ ⟨false, false, ["waiting", "waiting"], 0⟩
        ⟨none, none⟩).1 = ⟨true, false, ["running", "running"], 2⟩ ∧
    (check_child_status ⟨2, "all_success"⟩ ⟨true, false, ["running", "running"], 2⟩
        ⟨some ⟨some "parallel", some "running", some ["success", "running"]⟩,
          some "running"⟩).1 =
      ⟨true, false, ["success", "running"], 1⟩ ∧
    (check_child_status ⟨2, "all_success"⟩ ⟨true, false, ["success", "running"], 1⟩
        ⟨some ⟨some "parallel", some "running", some ["waiting", "running"]⟩,
          some "running"⟩).1 =
      ⟨true, false, ["waiting", "running"], 1⟩ ∧
    ¬ allowed_step "success" "waiting" := by
  refine ⟨by decide, by decide, by decide, ?_⟩
  intro h
  rcases h with h | ⟨h, _⟩ | ⟨h, _⟩ <;> simp at h

/-- C9 amended (the sequence coordinator): within one sequence run — any
number of poll ticks after a trigger, each observing arbitrary Blackboard
contents — every poll/dispatch update moves each tracked slot only along
waiting → running → {success, failure} or leaves it unchanged, so a slot
status never reverts.  The parallel coordinator does not satisfy the
original claim: its poll adopts the observed Blackboard array wholesale
(see the counterexample). -/
theorem c9_sequence_slots_monotonic_amended
    (node : SeqConfig) (s0 : SeqState) (g0 : SeqGlobal)
    (past : List (List String)) (obs : List String) :
    slots_allowed
      (seq_ticks node past
        ((seq_input node s0 g0).1, (seq_input node s0 g0).2.1)).1.1.child_status
      (seq_tick node obs
        (seq_ticks node past
          ((seq_input node s0 g0).1, (seq_input node s0 g0).2.1)).1).1.child_status := by
  have hinv := seq_ticks_inv node past (seq_input node s0 g0).1
    (seq_input node s0 g0).2.1 (seq_inv_input node s0 g0)
  exact (seq_tick_preserves node obs _ _ hinv).2

/-- C10: the repeat poll's behaviour does not depend on the value stored
under the child-signal key: two checks from the same node state whose
stores agree on the coordinator record and the override key produce the
same node state, record, override and dispatch, and either write the same
child-signal value or both leave the key untouched — the outcome is
classified solely from the record's child_status field, and the check only
ever writes (never reads) the child-signal key. -/
theorem c10_repeat_check_ignores_child_signal
    (node : RepConfig) (s : RepState) (g1 g2 : RepGlobal)
    (hrec : g1.record = g2.record) (hov : g1.repeat_override = g2.repeat_override) :
    (rep_check_child_state node s g1).1 = (rep_check_child_state node s g2).1 ∧
    (rep_check_child_state node s g1).2.1.record =
      (rep_check_child_state node s g2).2.1.record ∧
    (rep_check_child_state node s g1).2.1.repeat_override =
      (rep_check_child_state node s g2).2.1.repeat_override ∧
    (rep_check_child_state node s g1).2.2 = (rep_check_child_state node s g2).2.2 ∧
    ((rep_check_child_state node s g1).2.1.child =
        (rep_check_child_state node s g2).2.1.child ∨
      ((rep_check_child_state node s g1).2.1.child = g1.child ∧
        (rep_check_child_state node s g2).2.1.child = g2.child)) := by
  obtain ⟨r1, c1, o1⟩ := g1
  obtain ⟨r2, c2, o2⟩ := g2
  dsimp only at hrec hov
  subst hrec
  subst hov
  simp only [rep_check_child_state, executeChild, rep_finishExecution]
  split_ifs <;> simp

/-- C10 witness: two concrete checks that differ only in the child-signal
value ("A" vs "B") classify the same "success" outcome identically. -/
theorem c10_repeat_check_ignores_child_signal_witness :
    (rep_check_child_state ⟨"fixed"⟩ ⟨true, false, 3, 1, [], []⟩
        ⟨some { child_status := some "success" }, some "A", none⟩).1 =
      (rep_check_child_state ⟨"fixed"⟩ ⟨true, false, 3, 1, [], []⟩
        ⟨some { child_status := some "success" }, some "B", none⟩).1 ∧
    (rep_check_child_state ⟨"fixed"⟩ ⟨true, false, 3, 1, [], []⟩
        ⟨some { child_status := some "success" }, some "A", none⟩).2.1.record =
      (rep_check_child_state ⟨"fixed"⟩ ⟨true, false, 3, 1, [], []⟩
        ⟨some { child_status := some "success" }, some "B", none⟩).2.1.record ∧
    (rep_check_child_state ⟨"fixed"⟩ ⟨true, false, 3, 1, [], []⟩
        ⟨some { child_status := some "success" }, some "A", none⟩).2.1.repeat_override =
      (rep_check_child_state ⟨"fixed"⟩ ⟨true, false, 3, 1, [], []⟩
        ⟨some { child_status := some "success" }, some "B", none⟩).2.1.repeat_override ∧
    (rep_check_child_state ⟨"fixed"⟩ ⟨true, false, 3, 1, [], []⟩
        ⟨some { child_status := some "success" }, some "A", none⟩).2.2 =
      (rep_check_child_state ⟨"fixed"⟩ ⟨true, false, 3, 1, [], []⟩
        ⟨some { child_status := some "success" }, some "B", none⟩).2.2 ∧
    ((rep_check_child_state ⟨"fixed"⟩ ⟨true, false, 3, 1, [], []⟩
        ⟨some { child_status := some "success" }, some "A", none⟩).2.1.child =
      (rep_check_child_state ⟨"fixed"⟩ ⟨true, false, 3, 1, [], []⟩
        ⟨some { child_status := some "success" }, some "B", none⟩).2.1.child ∨
     ((rep_check_child_state ⟨"fixed"⟩ ⟨true, false, 3, 1, [], []⟩
        ⟨some { child_status := some "success" }, some "A", none⟩).2.1.child = some "A" ∧
      (rep_check_child_state ⟨"fixed"⟩ ⟨true, false, 3, 1, [], []⟩
        ⟨some { child_status := some "success" }, some "B", none⟩).2.1.child = some "B")) :=
  c10_repeat_check_ignores_child_signal ⟨"fixed"⟩ ⟨true, false, 3, 1, [], []⟩
    ⟨some { child_status := some "success" }, some "A", none⟩
    ⟨some { child_status := some "success" }, some "B", none⟩ rfl rfl

/-- C1 witness: a concrete all_success tick with statuses
["failure", "running"] on two slots completes the run with final status
"failure". -/
theorem c1_parallel_completion_policies_witness :
    (check_child_status ⟨2, "all_success"⟩
        ⟨true, false, ["running", "running"], 2⟩
        ⟨some ⟨some "parallel", some "running", some ["failure", "running"]⟩,
          some "running"⟩).1.is_completed = true ∧
    ((check_child_status ⟨2, "all_success"⟩
        ⟨true, false, ["running", "running"], 2⟩
        ⟨some ⟨some "parallel", some "running", some ["failure", "running"]⟩,
          some "running"⟩).2.record.getD {}).status = some "failure" :=
  ((c1_parallel_completion_policies ⟨2, "all_success"⟩
      ⟨true, false, ["running", "running"], 2⟩
      ⟨some ⟨some "parallel", some "running", some ["failure", "running"]⟩,
        some "running"⟩
      ⟨some "parallel", some "running", some ["failure", "running"]⟩
      ["failure", "running"] rfl rfl rfl rfl rfl).1 rfl).1.mpr
    ⟨"failure", by simp, rfl⟩

end BT
